import Mathlib

/-!
Verification of the kidney-donor risk calculator (IQR-BR).

The core of the program is the pure function `calcular_score_risco`, which
maps seven clinical inputs to a normalized risk percentage together with a
map of per-factor point contributions, and the risk banding used by the
display layer. We embed the core here: integer age, rational creatinine and
cold-ischemia time (the program's decimal inputs), Booleans for the four
flags, and the Python dict of contributions as an association list built in
the source's insertion order.
-/

namespace RenalRisk

/-- The seven clinical inputs of `calcular_score_risco`, in the order the
source function takes them. -/
structure DonorProfile where
  idade : ℤ
  creatinina : ℚ
  has : Bool
  dm : Bool
  tempo_isquemia : ℚ
  pcr : Bool
  hcv : Bool
deriving DecidableEq, Repr

/-- Factor 1 of `calcular_score_risco`: points for donor age
(tiers 40..49 → 15, 50..59 → 25, ≥60 → 40, else 0). -/
def pontos_idade (idade : ℤ) : ℕ :=
  if 40 ≤ idade ∧ idade ≤ 49 then 15
  else if 50 ≤ idade ∧ idade ≤ 59 then 25
  else if 60 ≤ idade then 40
  else 0

/-- Factor 2 of `calcular_score_risco`: points for serum creatinine
(1.5 ≤ c ≤ 2.5 → 20, c > 2.5 → 35, else 0). -/
def pontos_creatinina (creatinina : ℚ) : ℕ :=
  if 3/2 ≤ creatinina ∧ creatinina ≤ 5/2 then 20
  else if 5/2 < creatinina then 35
  else 0

/-- Factor 5 of `calcular_score_risco`: points for cold ischemia time
(12 ≤ t ≤ 20 → 15, 21 ≤ t ≤ 28 → 25, t > 28 → 35, else 0). -/
def pontos_isquemia (tempo_isquemia : ℚ) : ℕ :=
  if 12 ≤ tempo_isquemia ∧ tempo_isquemia ≤ 20 then 15
  else if 21 ≤ tempo_isquemia ∧ tempo_isquemia ≤ 28 then 25
  else if 28 < tempo_isquemia then 35
  else 0

/-- The `fatores_risco` dict of `calcular_score_risco`, as an association
list in the source's insertion order: each factor inserts its label and
points exactly when its awarded points are nonzero (numeric factors) or its
flag is true (Boolean factors, with fixed points 25/30/15/10). -/
def fatores_risco (p : DonorProfile) : List (String × ℕ) :=
  (if 0 < pontos_idade p.idade then [("Idade", pontos_idade p.idade)] else [])
  ++ (if 0 < pontos_creatinina p.creatinina then
        [("Creatinina", pontos_creatinina p.creatinina)] else [])
  ++ (if p.has then [("Hipertensão", 25)] else [])
  ++ (if p.dm then [("Diabetes", 30)] else [])
  ++ (if 0 < pontos_isquemia p.tempo_isquemia then
        [("Tempo de Isquemia", pontos_isquemia p.tempo_isquemia)] else [])
  ++ (if p.pcr then [("PCR", 15)] else [])
  ++ (if p.hcv then [("Hepatite C", 10)] else [])

/-- `score_bruto = sum(fatores_risco.values())` in the source. -/
def score_bruto (p : DonorProfile) : ℕ :=
  ((fatores_risco p).map Prod.snd).sum

/-- The fixed maximum `score_maximo_possivel = 190` of the source
(40+35+25+30+35+15+10). -/
def score_maximo_possivel : ℕ := 190

/-- `calcular_score_risco`: returns the normalized percentage
`score_bruto / 190 * 100` and the contributions list. -/
def calcular_score_risco (p : DonorProfile) : ℚ × List (String × ℕ) :=
  ((score_bruto p : ℚ) / (score_maximo_possivel : ℚ) * 100, fatores_risco p)

/-- The three risk bands of the display branch. -/
inductive RiskBand where
  | LOW
  | MODERATE
  | HIGH
deriving DecidableEq, Repr

/-- The risk banding branch of the program
(`score < 30` → green/LOW, `30 <= score < 60` → orange/MODERATE,
else red/HIGH). -/
def classify (score : ℚ) : RiskBand :=
  if score < 30 then RiskBand.LOW
  else if 30 ≤ score ∧ score < 60 then RiskBand.MODERATE
  else RiskBand.HIGH

/-- Rank of a band, to state monotonicity of `classify`. -/
def bandRank : RiskBand → ℕ
  | RiskBand.LOW => 0
  | RiskBand.MODERATE => 1
  | RiskBand.HIGH => 2

/-- Division with an explicit division-by-zero check, to make the only
fallible step of the source (`score_bruto / score_maximo_possivel`)
visible. -/
def qdivChecked (a b : ℚ) : Option ℚ :=
  if b = 0 then none else some (a / b)

/-- `calcular_score_risco` with its single division routed through
`qdivChecked`: the only conceivable error branch of the computation. -/
def calcular_score_risco_checked (p : DonorProfile) :
    Option (ℚ × List (String × ℕ)) :=
  (qdivChecked (score_bruto p : ℚ) (score_maximo_possivel : ℚ)).map
    (fun q => (q * 100, fatores_risco p))

/-! ## Helper lemmas -/

/-- Membership in the contributions list, characterized factor by factor. -/
lemma mem_fatores_risco (p : DonorProfile) (x : String × ℕ) :
    x ∈ fatores_risco p ↔
      (x = ("Idade", pontos_idade p.idade) ∧ 0 < pontos_idade p.idade) ∨
      (x = ("Creatinina", pontos_creatinina p.creatinina) ∧
        0 < pontos_creatinina p.creatinina) ∨
      (x = ("Hipertensão", 25) ∧ p.has = true) ∨
      (x = ("Diabetes", 30) ∧ p.dm = true) ∨
      (x = ("Tempo de Isquemia", pontos_isquemia p.tempo_isquemia) ∧
        0 < pontos_isquemia p.tempo_isquemia) ∨
      (x = ("PCR", 15) ∧ p.pcr = true) ∨
      (x = ("Hepatite C", 10) ∧ p.hcv = true) := by
  unfold fatores_risco
  split_ifs <;> simp_all

/-- Every value stored in the contributions list is strictly positive. -/
lemma fatores_risco_pos (p : DonorProfile) :
    ∀ x ∈ fatores_risco p, 0 < x.2 := by
  intro x hx
  rcases (mem_fatores_risco p x).mp hx with
    ⟨hx, hp⟩ | ⟨hx, hp⟩ | ⟨hx, hp⟩ | ⟨hx, hp⟩ | ⟨hx, hp⟩ | ⟨hx, hp⟩ | ⟨hx, hp⟩ <;>
    subst hx <;> simp_all

/-- The raw score is the plain sum of the seven factor awards. -/
lemma score_bruto_eq (p : DonorProfile) :
    score_bruto p =
      pontos_idade p.idade + pontos_creatinina p.creatinina +
      (if p.has then 25 else 0) + (if p.dm then 30 else 0) +
      pontos_isquemia p.tempo_isquemia + (if p.pcr then 15 else 0) +
      (if p.hcv then 10 else 0) := by
  unfold score_bruto fatores_risco
  split_ifs <;> simp_all <;> omega

/-- The age factor never exceeds its top tier of 40 points. -/
lemma pontos_idade_le (idade : ℤ) : pontos_idade idade ≤ 40 := by
  unfold pontos_idade
  split_ifs <;> omega

/-- The creatinine factor never exceeds its top tier of 35 points. -/
lemma pontos_creatinina_le (creatinina : ℚ) :
    pontos_creatinina creatinina ≤ 35 := by
  unfold pontos_creatinina
  split_ifs <;> omega

/-- The ischemia factor never exceeds its top tier of 35 points. -/
lemma pontos_isquemia_le (tempo_isquemia : ℚ) :
    pontos_isquemia tempo_isquemia ≤ 35 := by
  unfold pontos_isquemia
  split_ifs <;> omega

/-- The raw score never exceeds the fixed maximum 190. -/
lemma score_bruto_le (p : DonorProfile) : score_bruto p ≤ 190 := by
  rw [score_bruto_eq]
  have h1 := pontos_idade_le p.idade
  have h2 := pontos_creatinina_le p.creatinina
  have h3 := pontos_isquemia_le p.tempo_isquemia
  split_ifs <;> omega

/-- Each percentage falls in exactly one band of `classify`, with the
matching inequality. -/
lemma classify_cases (z : ℚ) :
    (z < 30 ∧ classify z = RiskBand.LOW) ∨
    (30 ≤ z ∧ z < 60 ∧ classify z = RiskBand.MODERATE) ∨
    (60 ≤ z ∧ classify z = RiskBand.HIGH) := by
  unfold classify
  split_ifs with h1 h2
  · exact Or.inl ⟨h1, rfl⟩
  · exact Or.inr (Or.inl ⟨h2.1, h2.2, rfl⟩)
  · refine Or.inr (Or.inr ⟨?_, rfl⟩)
    push_neg at h1 h2
    exact h2 h1

/-! ## Claim theorems -/

/-- C1: for every donor profile, the percentage returned by
`calcular_score_risco` equals the sum of the values of the returned
contributions map, divided by 190 and multiplied by 100, exactly. -/
theorem percentage_eq_rawSum_div_190_mul_100 (p : DonorProfile) :
    (calcular_score_risco p).1 =
      ((((calcular_score_risco p).2.map Prod.snd).sum : ℚ) / 190) * 100 := by
  simp [calcular_score_risco, score_bruto, score_maximo_possivel]

/-- C3: the age factor awards points by inclusive tiers: 39 → 0,
40 and 49 → 15, 50 and 59 → 25, 60 and 99 → 40, any age below 40 → 0, and
a nonzero award appears in the contributions under the label `Idade`. -/
theorem age_tier_boundaries (p : DonorProfile) :
    pontos_idade 39 = 0 ∧ pontos_idade 40 = 15 ∧ pontos_idade 49 = 15 ∧
    pontos_idade 50 = 25 ∧ pontos_idade 59 = 25 ∧ pontos_idade 60 = 40 ∧
    pontos_idade 99 = 40 ∧
    (p.idade < 40 → pontos_idade p.idade = 0) ∧
    (0 < pontos_idade p.idade →
      ("Idade", pontos_idade p.idade) ∈ (calcular_score_risco p).2) := by
  refine ⟨by decide, by decide, by decide, by decide, by decide, by decide,
    by decide, fun h => ?_, fun h => ?_⟩
  · unfold pontos_idade
    split_ifs <;> omega
  · simp [calcular_score_risco, fatores_risco, h]

/-- C3 witness: concrete instances of the age-tier theorem. -/
theorem age_tier_boundaries_witness :
    pontos_idade 30 = 0 ∧
    ("Idade", 15) ∈
      (calcular_score_risco ⟨45, 1, false, false, 5, false, false⟩).2 := by
  constructor
  · exact (age_tier_boundaries
      ⟨30, 1, false, false, 5, false, false⟩).2.2.2.2.2.2.2.1 (by decide)
  · have h := (age_tier_boundaries
      ⟨45, 1, false, false, 5, false, false⟩).2.2.2.2.2.2.2.2 (by decide)
    simpa [show pontos_idade 45 = 15 from by decide] using h

/-- C4: the creatinine factor awards 20 points on the closed interval
[1.5, 2.5] (so exactly 2.5 gives 20, not 35), 35 points strictly above 2.5,
0 below 1.5 (e.g. at 1.49), and a nonzero award appears in the
contributions under the label `Creatinina`. -/
theorem creatinine_tier_boundaries (p : DonorProfile) :
    pontos_creatinina (149/100) = 0 ∧ pontos_creatinina (3/2) = 20 ∧
    pontos_creatinina (5/2) = 20 ∧ pontos_creatinina (251/100) = 35 ∧
    (∀ c : ℚ, 3/2 ≤ c → c ≤ 5/2 → pontos_creatinina c = 20) ∧
    (∀ c : ℚ, 5/2 < c → pontos_creatinina c = 35) ∧
    (∀ c : ℚ, c < 3/2 → pontos_creatinina c = 0) ∧
    (0 < pontos_creatinina p.creatinina →
      ("Creatinina", pontos_creatinina p.creatinina) ∈
        (calcular_score_risco p).2) := by
  refine ⟨by norm_num [pontos_creatinina], by norm_num [pontos_creatinina],
    by norm_num [pontos_creatinina], by norm_num [pontos_creatinina],
    fun c h1 h2 => ?_, fun c h => ?_, fun c h => ?_, fun h => ?_⟩
  · unfold pontos_creatinina
    rw [if_pos ⟨h1, h2⟩]
  · unfold pontos_creatinina
    rw [if_neg (by rintro ⟨a, b⟩; linarith), if_pos h]
  · unfold pontos_creatinina
    rw [if_neg (by rintro ⟨a, b⟩; linarith), if_neg (by linarith)]
  · simp [calcular_score_risco, fatores_risco, h]

/-- C4 witness: concrete instances of the creatinine-tier theorem. -/
theorem creatinine_tier_boundaries_witness :
    pontos_creatinina 1 = 0 ∧ pontos_creatinina 2 = 20 ∧
    pontos_creatinina 3 = 35 ∧
    ("Creatinina", 20) ∈
      (calcular_score_risco ⟨30, 2, false, false, 5, false, false⟩).2 := by
  have h := creatinine_tier_boundaries ⟨30, 2, false, false, 5, false, false⟩
  refine ⟨h.2.2.2.2.2.2.1 1 (by norm_num),
    h.2.2.2.2.1 2 (by norm_num) (by norm_num),
    h.2.2.2.2.2.1 3 (by norm_num), ?_⟩
  have hm := h.2.2.2.2.2.2.2 (by norm_num [pontos_creatinina])
  simpa [show pontos_creatinina 2 = 20 from by norm_num [pontos_creatinina]]
    using hm

/-- C5: the cold-ischemia factor awards 15 points on [12, 20], 25 points on
[21, 28], 35 points strictly above 28, 0 otherwise (in particular at 11),
and a nonzero award appears in the contributions under the label
`Tempo de Isquemia`. -/
theorem ischemia_tier_boundaries (p : DonorProfile) :
    pontos_isquemia 11 = 0 ∧ pontos_isquemia 12 = 15 ∧
    pontos_isquemia 20 = 15 ∧ pontos_isquemia 21 = 25 ∧
    pontos_isquemia 28 = 25 ∧ pontos_isquemia 29 = 35 ∧
    (∀ t : ℚ, 12 ≤ t → t ≤ 20 → pontos_isquemia t = 15) ∧
    (∀ t : ℚ, 21 ≤ t → t ≤ 28 → pontos_isquemia t = 25) ∧
    (∀ t : ℚ, 28 < t → pontos_isquemia t = 35) ∧
    (∀ t : ℚ, t < 12 → pontos_isquemia t = 0) ∧
    (0 < pontos_isquemia p.tempo_isquemia →
      ("Tempo de Isquemia", pontos_isquemia p.tempo_isquemia) ∈
        (calcular_score_risco p).2) := by
  refine ⟨by norm_num [pontos_isquemia], by norm_num [pontos_isquemia],
    by norm_num [pontos_isquemia], by norm_num [pontos_isquemia],
    by norm_num [pontos_isquemia], by norm_num [pontos_isquemia],
    fun t h1 h2 => ?_, fun t h1 h2 => ?_, fun t h => ?_, fun t h => ?_,
    fun h => ?_⟩
  · unfold pontos_isquemia
    rw [if_pos ⟨h1, h2⟩]
  · unfold pontos_isquemia
    rw [if_neg (by rintro ⟨a, b⟩; linarith), if_pos ⟨h1, h2⟩]
  · unfold pontos_isquemia
    rw [if_neg (by rintro ⟨a, b⟩; linarith),
      if_neg (by rintro ⟨a, b⟩; linarith), if_pos h]
  · unfold pontos_isquemia
    rw [if_neg (by rintro ⟨a, b⟩; linarith),
      if_neg (by rintro ⟨a, b⟩; linarith), if_neg (by linarith)]
  · simp [calcular_score_risco, fatores_risco, h]

/-- C5 witness: concrete instances of the ischemia-tier theorem. -/
theorem ischemia_tier_boundaries_witness :
    pontos_isquemia 15 = 15 ∧ pontos_isquemia 25 = 25 ∧
    pontos_isquemia 30 = 35 ∧ pontos_isquemia 5 = 0 ∧
    ("Tempo de Isquemia", 15) ∈
      (calcular_score_risco ⟨30, 1, false, false, 15, false, false⟩).2 := by
  have h := ischemia_tier_boundaries ⟨30, 1, false, false, 15, false, false⟩
  refine ⟨h.2.2.2.2.2.2.1 15 (by norm_num) (by norm_num),
    h.2.2.2.2.2.2.2.1 25 (by norm_num) (by norm_num),
    h.2.2.2.2.2.2.2.2.1 30 (by norm_num),
    h.2.2.2.2.2.2.2.2.2.1 5 (by norm_num), ?_⟩
  have hm := h.2.2.2.2.2.2.2.2.2.2 (by norm_num [pontos_isquemia])
  simpa [show pontos_isquemia 15 = 15 from by norm_num [pontos_isquemia]]
    using hm

/-- C7: every value in the contributions map is strictly positive, and a
false Boolean factor produces no entry at all for its label. -/
theorem contributions_pos_and_false_flags_absent (p : DonorProfile) :
    (∀ x ∈ (calcular_score_risco p).2, 0 < x.2) ∧
    (p.has = false →
      "Hipertensão" ∉ ((calcular_score_risco p).2.map Prod.fst)) ∧
    (p.dm = false →
      "Diabetes" ∉ ((calcular_score_risco p).2.map Prod.fst)) ∧
    (p.pcr = false →
      "PCR" ∉ ((calcular_score_risco p).2.map Prod.fst)) ∧
    (p.hcv = false →
      "Hepatite C" ∉ ((calcular_score_risco p).2.map Prod.fst)) := by
  refine ⟨fun x hx => fatores_risco_pos p x hx, ?_, ?_, ?_, ?_⟩ <;>
    intro hflag hmem <;>
    obtain ⟨x, hx, hfst⟩ := List.mem_map.mp hmem <;>
    rcases (mem_fatores_risco p x).mp hx with
      ⟨he, hc⟩ | ⟨he, hc⟩ | ⟨he, hc⟩ | ⟨he, hc⟩ | ⟨he, hc⟩ | ⟨he, hc⟩ |
      ⟨he, hc⟩ <;>
    subst he <;> simp_all

/-- C7 witness: concrete instance with all Boolean factors false. -/
theorem contributions_pos_and_false_flags_absent_witness :
    (0:ℕ) < 15 ∧
    "Hipertensão" ∉
      ((calcular_score_risco
        ⟨45, 1, false, false, 5, false, false⟩).2.map Prod.fst) := by
  have h := contributions_pos_and_false_flags_absent
    ⟨45, 1, false, false, 5, false, false⟩
  refine ⟨?_, h.2.1 rfl⟩
  have hm : (("Idade", 15) : String × ℕ) ∈
      (calcular_score_risco ⟨45, 1, false, false, 5, false, false⟩).2 := by
    simp [calcular_score_risco, fatores_risco, pontos_idade,
      pontos_creatinina, pontos_isquemia]
  exact h.1 ("Idade", 15) hm

/-- C10: a cold-ischemia time strictly between 20 and 21 matches no tier,
so the factor contributes 0 points and the label `Tempo de Isquemia` is
absent, although both 20 and 21 score nonzero. -/
theorem ischemia_decimal_gap (p : DonorProfile)
    (h1 : 20 < p.tempo_isquemia) (h2 : p.tempo_isquemia < 21) :
    pontos_isquemia p.tempo_isquemia = 0 ∧
    "Tempo de Isquemia" ∉ ((calcular_score_risco p).2.map Prod.fst) ∧
    pontos_isquemia 20 = 15 ∧ pontos_isquemia 21 = 25 := by
  have hz : pontos_isquemia p.tempo_isquemia = 0 := by
    unfold pontos_isquemia
    rw [if_neg (by rintro ⟨a, b⟩; linarith),
      if_neg (by rintro ⟨a, b⟩; linarith), if_neg (by linarith)]
  refine ⟨hz, ?_, by norm_num [pontos_isquemia], by norm_num [pontos_isquemia]⟩
  intro hmem
  obtain ⟨x, hx, hfst⟩ := List.mem_map.mp hmem
  rcases (mem_fatores_risco p x).mp hx with
    ⟨he, hc⟩ | ⟨he, hc⟩ | ⟨he, hc⟩ | ⟨he, hc⟩ | ⟨he, hc⟩ | ⟨he, hc⟩ |
    ⟨he, hc⟩ <;>
  subst he <;> simp_all

/-- C10 witness: the gap theorem at ischemia time 20.5 hours. -/
theorem ischemia_decimal_gap_witness :
    pontos_isquemia (41/2) = 0 ∧
    "Tempo de Isquemia" ∉
      ((calcular_score_risco
        ⟨30, 1, false, false, 41/2, false, false⟩).2.map Prod.fst) := by
  have h := ischemia_decimal_gap ⟨30, 1, false, false, 41/2, false, false⟩
    (by norm_num) (by norm_num)
  exact ⟨h.1, h.2.1⟩

/-- C2: for every donor profile with its seven fields in their declared
domains, the percentage returned by `calcular_score_risco` lies in
[0, 100]. -/
theorem percentage_in_0_100 (p : DonorProfile)
    (h1 : 0 ≤ p.idade) (h2 : p.idade ≤ 120) (h3 : 0 < p.creatinina)
    (h4 : p.creatinina ≤ 15) (h5 : 0 ≤ p.tempo_isquemia) :
    0 ≤ (calcular_score_risco p).1 ∧ (calcular_score_risco p).1 ≤ 100 := by
  have hs := score_bruto_le p
  have hsq : (score_bruto p : ℚ) ≤ 190 := by exact_mod_cast hs
  have h0 : (0:ℚ) ≤ (score_bruto p : ℚ) := Nat.cast_nonneg _
  constructor
  · simp only [calcular_score_risco]
    positivity
  · simp only [calcular_score_risco, score_maximo_possivel]
    rw [div_mul_eq_mul_div, div_le_iff₀ (by norm_num)]
    push_cast
    nlinarith

/-- C2 witness: the bounds at the UI default profile. -/
theorem percentage_in_0_100_witness :
    0 ≤ (calcular_score_risco ⟨50, 6/5, false, false, 18, false, false⟩).1 ∧
    (calcular_score_risco ⟨50, 6/5, false, false, 18, false, false⟩).1 ≤
      100 :=
  percentage_in_0_100 ⟨50, 6/5, false, false, 18, false, false⟩
    (by norm_num) (by norm_num) (by norm_num) (by norm_num) (by norm_num)

/-- C6: the percentage is zero iff the contributions map is empty iff all
seven factors are in their zero-point tier or false. -/
theorem zero_iff_empty_iff_all_factors_zero (p : DonorProfile) :
    ((calcular_score_risco p).1 = 0 ↔ (calcular_score_risco p).2 = []) ∧
    ((calcular_score_risco p).2 = [] ↔
      (pontos_idade p.idade = 0 ∧ pontos_creatinina p.creatinina = 0 ∧
       p.has = false ∧ p.dm = false ∧
       pontos_isquemia p.tempo_isquemia = 0 ∧ p.pcr = false ∧
       p.hcv = false)) := by
  have hpct : (calcular_score_risco p).1 = 0 ↔ score_bruto p = 0 := by
    simp [calcular_score_risco, score_maximo_possivel, div_eq_zero_iff,
      mul_eq_zero]
  have hraw0 : score_bruto p = 0 ↔
      (pontos_idade p.idade = 0 ∧ pontos_creatinina p.creatinina = 0 ∧
       p.has = false ∧ p.dm = false ∧
       pontos_isquemia p.tempo_isquemia = 0 ∧ p.pcr = false ∧
       p.hcv = false) := by
    rw [score_bruto_eq]
    cases hb1 : p.has <;> cases hb2 : p.dm <;> cases hb3 : p.pcr <;>
      cases hb4 : p.hcv <;> simp_all <;> omega
  have hemp : fatores_risco p = [] ↔
      (pontos_idade p.idade = 0 ∧ pontos_creatinina p.creatinina = 0 ∧
       p.has = false ∧ p.dm = false ∧
       pontos_isquemia p.tempo_isquemia = 0 ∧ p.pcr = false ∧
       p.hcv = false) := by
    unfold fatores_risco
    split_ifs <;> simp_all <;> omega
  have h2 : (calcular_score_risco p).2 = fatores_risco p := rfl
  rw [h2]
  exact ⟨hpct.trans (hraw0.trans hemp.symm), hemp⟩

/-- C8: `classify` maps percentages below 30 to LOW, those in [30, 60) to
MODERATE and those at least 60 to HIGH (each band exactly its interval,
so the bands are contiguous with boundaries at 30 and 60), and `classify`
is monotonic. -/
theorem classify_partition_monotone (x y : ℚ) :
    (classify x = RiskBand.LOW ↔ x < 30) ∧
    (classify x = RiskBand.MODERATE ↔ 30 ≤ x ∧ x < 60) ∧
    (classify x = RiskBand.HIGH ↔ 60 ≤ x) ∧
    (x ≤ y → bandRank (classify x) ≤ bandRank (classify y)) := by
  refine ⟨?_, ?_, ?_, ?_⟩
  · constructor
    · intro h
      rcases classify_cases x with ⟨ha, hb⟩ | ⟨ha, ha2, hb⟩ | ⟨ha, hb⟩ <;>
        first | exact ha | (rw [h] at hb; cases hb)
    · intro h
      unfold classify
      rw [if_pos h]
  · constructor
    · intro h
      rcases classify_cases x with ⟨ha, hb⟩ | ⟨ha, ha2, hb⟩ | ⟨ha, hb⟩ <;>
        first | exact ⟨ha, ha2⟩ | (rw [h] at hb; cases hb)
    · intro h
      unfold classify
      rw [if_neg (by linarith [h.1]), if_pos h]
  · constructor
    · intro h
      rcases classify_cases x with ⟨ha, hb⟩ | ⟨ha, ha2, hb⟩ | ⟨ha, hb⟩ <;>
        first | exact ha | (rw [h] at hb; cases hb)
    · intro h
      unfold classify
      rw [if_neg (by linarith), if_neg (by rintro ⟨a, b⟩; linarith)]
  · intro hxy
    rcases classify_cases x with ⟨ha, hb⟩ | ⟨ha, ha2, hb⟩ | ⟨ha, hb⟩ <;>
      rcases classify_cases y with ⟨hc, hd⟩ | ⟨hc, hc2, hd⟩ | ⟨hc, hd⟩ <;>
      rw [hb, hd] <;> simp [bandRank] <;> linarith

/-- C8 witness: the three bands and monotonicity at concrete percentages. -/
theorem classify_partition_monotone_witness :
    classify 10 = RiskBand.LOW ∧ classify 45 = RiskBand.MODERATE ∧
    classify 75 = RiskBand.HIGH ∧
    bandRank (classify 10) ≤ bandRank (classify 75) := by
  refine ⟨(classify_partition_monotone 10 75).1.mpr (by norm_num),
    (classify_partition_monotone 45 75).2.1.mpr (by norm_num),
    (classify_partition_monotone 75 75).2.2.1.mpr (by norm_num),
    (classify_partition_monotone 10 75).2.2.2 (by norm_num)⟩

/-- C9: `calcular_score_risco` is total: with its single division routed
through a checked division, it still returns `some` of the same result for
every profile, because the divisor is the nonzero constant 190. -/
theorem score_total_no_error (p : DonorProfile) :
    calcular_score_risco_checked p = some (calcular_score_risco p) ∧
    (score_maximo_possivel : ℚ) ≠ 0 := by
  constructor
  · simp [calcular_score_risco_checked, qdivChecked, calcular_score_risco,
      score_maximo_possivel]
  · simp [score_maximo_possivel]

end RenalRisk
